import Mathlib

set_option maxRecDepth 100000

/-!
Verification of the privacy-transfer proof-verification core
(crypto_primitives.rs, merlin_transcript.rs, proof_verification.rs).

Bytes are modelled as lists of naturals; every byte produced by the code
is < 256 by construction.  Fallible Rust functions returning
Result<T, ProofVerificationError> are modelled as Except values.
-/

namespace PrivacyTransfer

abbrev Bytes := List Nat

/-- The all-zero byte string of length n, the Rust [0u8; N] literal. -/
def zeros (n : Nat) : Bytes := List.replicate n 0

/-- UTF-8 bytes of an ASCII string literal (Rust b"..." byte strings). -/
def strBytes (s : String) : Bytes := s.toList.map Char.toNat

/-- Error codes of proof_verification.rs (enum ProofVerificationError). -/
inductive ProofVerificationError
  | DeserializationFailed
  | InvalidRangeProof
  | InvalidEqualityProof
  | InvalidValidityProof
  | BalanceEquationFailed
  | CommitmentMismatch
  | InvalidPoint
  | InvalidProofStructure
  | InvalidCommitment
  deriving DecidableEq, Repr

instance {ε α : Type} [DecidableEq ε] [DecidableEq α] : DecidableEq (Except ε α) :=
  fun x y =>
    match x, y with
    | .error a, .error b =>
      if h : a = b then .isTrue (by rw [h])
      else .isFalse (fun hh => by cases hh; exact h rfl)
    | .ok a, .ok b =>
      if h : a = b then .isTrue (by rw [h])
      else .isFalse (fun hh => by cases hh; exact h rfl)
    | .error _, .ok _ => .isFalse (fun hh => by cases hh)
    | .ok _, .error _ => .isFalse (fun hh => by cases hh)

/-! Keccak-256, the hash behind the sha3 crate's Keccak256 used by
merlin_transcript.rs.  Lanes are naturals reduced mod 2^64. -/

/-- Rotate a 64-bit lane left by k bits. -/
def rotl64 (x k : Nat) : Nat :=
  ((x <<< (k % 64)) ||| (x >>> (64 - k % 64))) % 2 ^ 64

/-- Keccak round constants (24 rounds). -/
def keccakRC : List Nat :=
  [0x0000000000000001, 0x0000000000008082, 0x800000000000808a, 0x8000000080008000,
   0x000000000000808b, 0x0000000080000001, 0x8000000080008081, 0x8000000000008009,
   0x000000000000008a, 0x0000000000000088, 0x0000000080008009, 0x000000008000000a,
   0x000000008000808b, 0x800000000000008b, 0x8000000000008089, 0x8000000000008003,
   0x8000000000008002, 0x8000000000000080, 0x000000000000800a, 0x800000008000000a,
   0x8000000080008081, 0x8000000000008080, 0x0000000080000001, 0x8000000080008008]

/-- Keccak rotation offsets, indexed by lane index x + 5 * y, listed one
row (fixed y) at a time. -/
def keccakRotOff : List Nat :=
  [0, 1, 62, 28, 27] ++ [36, 44, 6, 55, 20] ++ [3, 10, 43, 25, 39] ++
    [41, 45, 15, 21, 8] ++ [18, 2, 61, 56, 14]

/-- Keccak theta step on a 25-lane state. -/
def keccakTheta (s : List Nat) : List Nat :=
  let c := (List.range 5).map (fun x =>
    ((s.getD x 0) ^^^ (s.getD (x + 5) 0)) ^^^ (s.getD (x + 10) 0)
      ^^^ ((s.getD (x + 15) 0) ^^^ (s.getD (x + 20) 0)))
  let d := (List.range 5).map (fun x =>
    (c.getD ((x + 4) % 5) 0) ^^^ rotl64 (c.getD ((x + 1) % 5) 0) 1)
  (List.range 25).map (fun i => (s.getD i 0) ^^^ (d.getD (i % 5) 0))

/-- Keccak rho and pi steps combined. -/
def keccakRhoPi (s : List Nat) : List Nat :=
  (List.range 25).foldl (fun acc i =>
    let x := i % 5
    let y := i / 5
    let j := y + 5 * ((2 * x + 3 * y) % 5)
    acc.set j (rotl64 (s.getD i 0) (keccakRotOff.getD i 0)))
    (zeros 25)

/-- Keccak chi step. -/
def keccakChi (b : List Nat) : List Nat :=
  (List.range 25).map (fun i =>
    let x := i % 5
    let y := i / 5
    (b.getD i 0) ^^^
      (((b.getD ((x + 1) % 5 + 5 * y) 0) ^^^ (2 ^ 64 - 1)) &&& (b.getD ((x + 2) % 5 + 5 * y) 0)))

/-- One Keccak-f round: theta, rho, pi, chi, iota. -/
def keccakRound (s : List Nat) (rc : Nat) : List Nat :=
  let c := keccakChi (keccakRhoPi (keccakTheta s))
  c.set 0 ((c.getD 0 0) ^^^ rc)

/-- The Keccak-f[1600] permutation (24 rounds). -/
def keccakF (s : List Nat) : List Nat := keccakRC.foldl keccakRound s

/-- Original Keccak multi-rate padding (0x01 .. 0x80) to a 136-byte rate. -/
def keccakPad (msg : Bytes) : Bytes :=
  let padLen := 136 - msg.length % 136
  if padLen == 1 then msg ++ [0x81]
  else msg ++ [0x01] ++ zeros (padLen - 2) ++ [0x80]

/-- Interpret the first 136 bytes of a block as 17 little-endian 64-bit lanes. -/
def bytesToLanes (block : Bytes) : List Nat :=
  (List.range 17).map (fun i =>
    (List.range 8).foldl (fun acc j => acc + (block.getD (8 * i + j) 0) * 2 ^ (8 * j)) 0)

/-- Absorb one 136-byte block into the sponge state. -/
def absorbBlock (state : List Nat) (block : Bytes) : List Nat :=
  let lanes := bytesToLanes block
  keccakF ((List.range 25).map (fun i =>
    if i < 17 then (state.getD i 0) ^^^ (lanes.getD i 0) else state.getD i 0))

/-- Absorb a given number of consecutive 136-byte blocks. -/
def absorbAll (state : List Nat) (blocks : Nat) (data : Bytes) : List Nat :=
  match blocks with
  | 0 => state
  | b + 1 => absorbAll (absorbBlock state (data.take 136)) b (data.drop 136)

/-- Little-endian bytes of a 64-bit lane. -/
def laneToBytes (x : Nat) : Bytes := (List.range 8).map (fun j => x / 2 ^ (8 * j) % 256)

/-- Keccak-256: pad, absorb, and squeeze the first 32 bytes. -/
def keccak256 (msg : Bytes) : Bytes :=
  let padded := keccakPad msg
  let st := absorbAll (zeros 25) (padded.length / 136) padded
  ((List.range 4).map (fun i => laneToBytes (st.getD i 0))).flatten

/-! crypto_primitives.rs -/

/-- is_nonzero_point: the 64-byte value is not all zeros. -/
def is_nonzero_point (bytes : Bytes) : Bool := bytes != zeros 64

/-- is_valid_commitment_format: 64 bytes, non-zero. -/
def is_valid_commitment_format (bytes : Bytes) : Bool := is_nonzero_point bytes

/-- constant_time_eq: length check then OR-accumulated XOR of the bytes. -/
def constant_time_eq (a b : Bytes) : Bool :=
  if a.length != b.length then false
  else ((a.zip b).foldl (fun result p => result ||| (p.1 ^^^ p.2)) 0) == 0

/-! merlin_transcript.rs -/

/-- MerlinTranscript: an append-only byte log. -/
structure MerlinTranscript where
  messages : Bytes
  deriving DecidableEq

/-- MerlinTranscript::new seeds the log with the protocol label and the
domain separator. -/
def MerlinTranscript.new (domain_separator : Bytes) : MerlinTranscript :=
  { messages := strBytes "Merlin v1.0" ++ domain_separator }

/-- Little-endian bytes of a usize length cast to u64. -/
def u64le (n : Nat) : Bytes := (List.range 8).map (fun i => n % 2 ^ 64 / 2 ^ (8 * i) % 256)

/-- append_message: length-prefixed label then length-prefixed payload. -/
def MerlinTranscript.append_message (t : MerlinTranscript) (label message : Bytes) :
    MerlinTranscript :=
  { messages := t.messages ++ u64le label.length ++ label ++ u64le message.length ++ message }

/-- append_point is append_message on a 64-byte point. -/
def MerlinTranscript.append_point (t : MerlinTranscript) (label point_bytes : Bytes) :
    MerlinTranscript :=
  t.append_message label point_bytes

/-- append_scalar is append_message on a 32-byte scalar. -/
def MerlinTranscript.append_scalar (t : MerlinTranscript) (label scalar_bytes : Bytes) :
    MerlinTranscript :=
  t.append_message label scalar_bytes

/-- challenge_scalar: hash the log plus the length-prefixed label, append the
digest back to the log, and return its first 32 bytes. -/
def MerlinTranscript.challenge_scalar (t : MerlinTranscript) (label : Bytes) :
    Bytes × MerlinTranscript :=
  let hash := keccak256 (t.messages ++ u64le label.length ++ label)
  (hash.take 32, { messages := t.messages ++ hash })

/-- challenge_bytes: same mechanism as challenge_scalar, arbitrary length. -/
def MerlinTranscript.challenge_bytes (t : MerlinTranscript) (label : Bytes) (len : Nat) :
    Bytes × MerlinTranscript :=
  let hash := keccak256 (t.messages ++ u64le label.length ++ label)
  (hash.take len, { messages := t.messages ++ hash })

/-- rangeproof_domain_sep: the literal "rangeproof" followed by n and m. -/
def rangeproof_domain_sep (n m : Nat) : Bytes := strBytes "rangeproof" ++ [n, m]

/-! proof_verification.rs: data structures -/

/-- Minimum proof data size in bytes. -/
def MIN_PROOF_DATA_SIZE : Nat := 64

/-- Maximum proof data size in bytes. -/
def MAX_PROOF_DATA_SIZE : Nat := 10000

/-- Inner product proof structure (placeholder, never verified on-chain). -/
structure InnerProductProof where
  l : List Bytes
  r : List Bytes
  a : Bytes
  b : Bytes
  deriving DecidableEq

/-- Bulletproof range proof record. -/
structure BulletproofRangeProof where
  commitment : Bytes
  a : Bytes
  s : Bytes
  t1 : Bytes
  t2 : Bytes
  taux : Bytes
  mu : Bytes
  t : Bytes
  inner_product_proof : InnerProductProof
  n : Nat
  deriving DecidableEq

/-- Equality proof record (Schnorr-like). -/
structure EqualityProof where
  r : Bytes
  s : Bytes
  deriving DecidableEq

/-- Validity proof: the two equality proofs. -/
structure ValidityProof where
  sender_equality_proof : EqualityProof
  recipient_equality_proof : EqualityProof
  deriving DecidableEq

/-- Complete transfer proof. -/
structure TransferProof where
  amount_range_proof : BulletproofRangeProof
  sender_after_range_proof : BulletproofRangeProof
  validity_proof : ValidityProof
  deriving DecidableEq

/-! proof_verification.rs: functions -/

/-- extract_amount_commitment: first 64 bytes, which must be non-zero. -/
def extract_amount_commitment (proof_data : Bytes) :
    Except ProofVerificationError Bytes :=
  if proof_data.length < 64 then .error .DeserializationFailed
  else
    let commitment := proof_data.take 64
    if commitment == zeros 64 then .error .InvalidCommitment
    else .ok commitment

/-- read_array: fixed-size read at an offset, advancing the offset. -/
def read_array (n : Nat) (data : Bytes) (offset : Nat) :
    Except ProofVerificationError (Bytes × Nat) :=
  if offset + n > data.length then .error .DeserializationFailed
  else .ok ((data.drop offset).take n, offset + n)

/-- deserialize_proof_data: size guards, all-zero-prefix guard, then the
fixed-offset parse of two range-proof records and two equality-proof
records.  The question-mark error propagation of the Rust source is
written as explicit matches, and the single mutable offset of the source
is rendered in single-assignment style (offset1, offset2, ...); each n
byte is read at the offset left by the preceding scalar read, and the
next read starts one past it. -/
def deserialize_proof_data (proof_data : Bytes) :
    Except ProofVerificationError TransferProof :=
  if proof_data.length < MIN_PROOF_DATA_SIZE then .error .DeserializationFailed
  else if proof_data.length > MAX_PROOF_DATA_SIZE then .error .DeserializationFailed
  else if proof_data.length < 512 then .error .DeserializationFailed
  else if (proof_data.take 256).all (fun b => b == 0) then .error .DeserializationFailed
  else
  match read_array 64 proof_data 0 with
  | .error e => .error e
  | .ok (amount_commitment, offset1) =>
  match read_array 64 proof_data offset1 with
  | .error e => .error e
  | .ok (amount_a, offset2) =>
  match read_array 64 proof_data offset2 with
  | .error e => .error e
  | .ok (amount_s, offset3) =>
  match read_array 64 proof_data offset3 with
  | .error e => .error e
  | .ok (amount_t1, offset4) =>
  match read_array 64 proof_data offset4 with
  | .error e => .error e
  | .ok (amount_t2, offset5) =>
  match read_array 32 proof_data offset5 with
  | .error e => .error e
  | .ok (amount_taux, offset6) =>
  match read_array 32 proof_data offset6 with
  | .error e => .error e
  | .ok (amount_mu, offset7) =>
  match read_array 32 proof_data offset7 with
  | .error e => .error e
  | .ok (amount_t, offset8) =>
  if amount_commitment == zeros 64 || amount_a == zeros 64 || amount_s == zeros 64
      || amount_taux == zeros 32 || amount_mu == zeros 32 || amount_t == zeros 32 then
    .error .InvalidRangeProof
  else
  match read_array 64 proof_data (offset8 + 1) with
  | .error e => .error e
  | .ok (sender_commitment, offset9) =>
  match read_array 64 proof_data offset9 with
  | .error e => .error e
  | .ok (sender_a, offset10) =>
  match read_array 64 proof_data offset10 with
  | .error e => .error e
  | .ok (sender_s, offset11) =>
  match read_array 64 proof_data offset11 with
  | .error e => .error e
  | .ok (sender_t1, offset12) =>
  match read_array 64 proof_data offset12 with
  | .error e => .error e
  | .ok (sender_t2, offset13) =>
  match read_array 32 proof_data offset13 with
  | .error e => .error e
  | .ok (sender_taux, offset14) =>
  match read_array 32 proof_data offset14 with
  | .error e => .error e
  | .ok (sender_mu, offset15) =>
  match read_array 32 proof_data offset15 with
  | .error e => .error e
  | .ok (sender_t, offset16) =>
  if sender_commitment == zeros 64 || sender_a == zeros 64 || sender_s == zeros 64
      || sender_taux == zeros 32 || sender_mu == zeros 32 || sender_t == zeros 32 then
    .error .InvalidRangeProof
  else
  match read_array 64 proof_data (offset16 + 1) with
  | .error e => .error e
  | .ok (sender_equality_r, offset17) =>
  match read_array 32 proof_data offset17 with
  | .error e => .error e
  | .ok (sender_equality_s, offset18) =>
  if sender_equality_r == zeros 64 || sender_equality_s == zeros 32 then
    .error .InvalidEqualityProof
  else
  match read_array 64 proof_data offset18 with
  | .error e => .error e
  | .ok (recipient_equality_r, offset19) =>
  match read_array 32 proof_data offset19 with
  | .error e => .error e
  | .ok (recipient_equality_s, _offset20) =>
  if recipient_equality_r == zeros 64 || recipient_equality_s == zeros 32 then
    .error .InvalidEqualityProof
  else
  .ok { amount_range_proof :=
          { commitment := amount_commitment, a := amount_a, s := amount_s,
            t1 := amount_t1, t2 := amount_t2, taux := amount_taux, mu := amount_mu,
            t := amount_t,
            inner_product_proof := { l := [], r := [], a := zeros 32, b := zeros 32 },
            n := if offset8 < proof_data.length then proof_data.getD offset8 0 else 64 },
        sender_after_range_proof :=
          { commitment := sender_commitment, a := sender_a, s := sender_s,
            t1 := sender_t1, t2 := sender_t2, taux := sender_taux, mu := sender_mu,
            t := sender_t,
            inner_product_proof := { l := [], r := [], a := zeros 32, b := zeros 32 },
            n := if offset16 < proof_data.length then proof_data.getD offset16 0 else 64 },
        validity_proof :=
          { sender_equality_proof :=
              { r := sender_equality_r, s := sender_equality_s },
            recipient_equality_proof :=
              { r := recipient_equality_r, s := recipient_equality_s } } }

/-- The transcript work of verify_range_proof: domain-separate on (n, 1),
append V, A, S, derive y and z, append T1, T2, derive x.  The source binds
the challenges to unused variables; they are returned here and discarded
by the caller. -/
def range_proof_challenges (proof : BulletproofRangeProof) : Bytes × Bytes × Bytes :=
  let domain_sep := rangeproof_domain_sep proof.n 1
  let transcript := MerlinTranscript.new domain_sep
  let transcript := transcript.append_point (strBytes "V") proof.commitment
  let transcript := transcript.append_point (strBytes "A") proof.a
  let transcript := transcript.append_point (strBytes "S") proof.s
  let yt := transcript.challenge_scalar (strBytes "y")
  let zt := yt.2.challenge_scalar (strBytes "z")
  let transcript := zt.2.append_point (strBytes "T1") proof.t1
  let transcript := transcript.append_point (strBytes "T2") proof.t2
  let xt := transcript.challenge_scalar (strBytes "x")
  (yt.1, zt.1, xt.1)

/-- verify_range_proof: commitment format, binding to the expected
commitment, non-zero fields, transcript challenge derivation (whose
values are unused), distinctness checks, and the range-size bound. -/
def verify_range_proof (proof : BulletproofRangeProof) (commitment : Bytes) :
    Except ProofVerificationError Unit :=
  if !is_valid_commitment_format commitment then .error .InvalidRangeProof
  else if !constant_time_eq proof.commitment commitment then .error .CommitmentMismatch
  else if !is_nonzero_point proof.a || !is_nonzero_point proof.s
      || !is_nonzero_point proof.t1 || !is_nonzero_point proof.t2 then
    .error .InvalidRangeProof
  else if proof.taux == zeros 32 || proof.mu == zeros 32 || proof.t == zeros 32 then
    .error .InvalidRangeProof
  else
  let _challenges := range_proof_challenges proof
  if constant_time_eq proof.a proof.s || constant_time_eq proof.t1 proof.t2
      || constant_time_eq proof.taux proof.mu then
    .error .InvalidRangeProof
  else if proof.taux == zeros 32 || proof.mu == zeros 32 || proof.t == zeros 32 then
    .error .InvalidRangeProof
  else if constant_time_eq commitment proof.a || constant_time_eq commitment proof.s
      || constant_time_eq commitment proof.t1 || constant_time_eq commitment proof.t2 then
    .error .InvalidRangeProof
  else if proof.n == 0 || proof.n > 64 then .error .InvalidRangeProof
  else .ok ()

/-- verify_equality_proof: non-zero commitments, non-zero R and s, and the
first 32 bytes of R must differ from s. -/
def verify_equality_proof (proof : EqualityProof) (commitment1 commitment2 : Bytes) :
    Except ProofVerificationError Unit :=
  if !is_nonzero_point commitment1 || !is_nonzero_point commitment2 then
    .error .InvalidEqualityProof
  else if !is_nonzero_point proof.r || proof.s == zeros 32 then
    .error .InvalidEqualityProof
  else if constant_time_eq (proof.r.take 32) proof.s then
    .error .InvalidEqualityProof
  else .ok ()

/-- verify_validity_proof: five non-zero commitments, then the two
equality-proof checks. -/
def verify_validity_proof (proof : ValidityProof)
    (sender_old_commitment amount_commitment sender_new_commitment
     recipient_old_commitment recipient_new_commitment : Bytes) :
    Except ProofVerificationError Unit :=
  if !is_nonzero_point sender_old_commitment || !is_nonzero_point amount_commitment
      || !is_nonzero_point sender_new_commitment
      || !is_nonzero_point recipient_old_commitment
      || !is_nonzero_point recipient_new_commitment then
    .error .InvalidValidityProof
  else
  match verify_equality_proof proof.sender_equality_proof
      sender_old_commitment sender_new_commitment with
  | .error e => .error e
  | .ok _ =>
  match verify_equality_proof proof.recipient_equality_proof
      recipient_old_commitment recipient_new_commitment with
  | .error e => .error e
  | .ok _ => .ok ()

/-- verify_transfer_proof: deserialize, two range-proof checks, validity
check, and the final commitment binding re-check. -/
def verify_transfer_proof (proof_data amount_commitment sender_after_commitment
    sender_old_commitment recipient_old_commitment recipient_new_commitment : Bytes) :
    Except ProofVerificationError Unit :=
  match deserialize_proof_data proof_data with
  | .error e => .error e
  | .ok proof =>
  match verify_range_proof proof.amount_range_proof amount_commitment with
  | .error e => .error e
  | .ok _ =>
  match verify_range_proof proof.sender_after_range_proof sender_after_commitment with
  | .error e => .error e
  | .ok _ =>
  match verify_validity_proof proof.validity_proof sender_old_commitment
      amount_commitment sender_after_commitment recipient_old_commitment
      recipient_new_commitment with
  | .error e => .error e
  | .ok _ =>
  if !constant_time_eq proof.amount_range_proof.commitment amount_commitment then
    .error .CommitmentMismatch
  else if !constant_time_eq proof.sender_after_range_proof.commitment
      sender_after_commitment then
    .error .CommitmentMismatch
  else .ok ()

/-! Specification-side definitions used to state theorems. -/

/-- The n-byte slice of a blob starting at a given offset. -/
def sliceAt (blob : Bytes) (off n : Nat) : Bytes := (blob.drop off).take n

/-- Fixed-offset slice specification of the parse result: field offsets of
the two 417-byte range-proof records and the two 96-byte equality-proof
records.  deserialize_proof_data is proved to return exactly this record
whenever it succeeds. -/
def parsedTransferProof (blob : Bytes) : TransferProof :=
  { amount_range_proof :=
      { commitment := sliceAt blob 0 64, a := sliceAt blob 64 64, s := sliceAt blob 128 64,
        t1 := sliceAt blob 192 64, t2 := sliceAt blob 256 64,
        taux := sliceAt blob 320 32, mu := sliceAt blob 352 32, t := sliceAt blob 384 32,
        inner_product_proof := { l := [], r := [], a := zeros 32, b := zeros 32 },
        n := blob.getD 416 0 },
    sender_after_range_proof :=
      { commitment := sliceAt blob 417 64, a := sliceAt blob 481 64, s := sliceAt blob 545 64,
        t1 := sliceAt blob 609 64, t2 := sliceAt blob 673 64,
        taux := sliceAt blob 737 32, mu := sliceAt blob 769 32, t := sliceAt blob 801 32,
        inner_product_proof := { l := [], r := [], a := zeros 32, b := zeros 32 },
        n := blob.getD 833 0 },
    validity_proof :=
      { sender_equality_proof := { r := sliceAt blob 834 64, s := sliceAt blob 898 32 },
        recipient_equality_proof := { r := sliceAt blob 930 64, s := sliceAt blob 994 32 } } }

/-! Concrete inputs used in scenarios, witnesses and counterexamples. -/

/-- Scenario 1 blob: 1600 bytes, bytes [0,64) equal to 0x01, the rest zero. -/
def blobScenario1 : Bytes := List.replicate 64 1 ++ List.replicate 1536 0

/-- Scenario 2 blob: 1600 bytes, every field slot filled with a distinct
non-zero pattern, n = 64 in both range records, zero filler after offset 1026. -/
def blobScenario2 : Bytes :=
  List.replicate 64 1 ++ List.replicate 64 2 ++ List.replicate 64 3 ++
  List.replicate 64 4 ++ List.replicate 64 5 ++ List.replicate 32 6 ++
  List.replicate 32 7 ++ List.replicate 32 8 ++ [64] ++
  List.replicate 64 9 ++ List.replicate 64 10 ++ List.replicate 64 11 ++
  List.replicate 64 12 ++ List.replicate 64 13 ++ List.replicate 32 14 ++
  List.replicate 32 15 ++ List.replicate 32 16 ++ [64] ++
  List.replicate 64 17 ++ List.replicate 32 18 ++
  List.replicate 64 19 ++ List.replicate 32 20 ++
  List.replicate 574 0

/-- A well-formed 1026-byte blob: the shortest length the parser accepts. -/
def blobMin : Bytes :=
  List.replicate 64 33 ++ List.replicate 64 34 ++ List.replicate 64 35 ++
  List.replicate 64 36 ++ List.replicate 64 37 ++ List.replicate 32 38 ++
  List.replicate 32 39 ++ List.replicate 32 40 ++ [64] ++
  List.replicate 64 41 ++ List.replicate 64 42 ++ List.replicate 64 43 ++
  List.replicate 64 44 ++ List.replicate 64 45 ++ List.replicate 32 46 ++
  List.replicate 32 47 ++ List.replicate 32 48 ++ [64] ++
  List.replicate 64 49 ++ List.replicate 32 50 ++
  List.replicate 64 51 ++ List.replicate 32 52

/-- A degenerate range-proof record whose A and S fields are byte-identical
and individually non-zero. -/
def rpDupAS : BulletproofRangeProof :=
  { commitment := List.replicate 64 5, a := List.replicate 64 6, s := List.replicate 64 6,
    t1 := List.replicate 64 7, t2 := List.replicate 64 8,
    taux := List.replicate 32 9, mu := List.replicate 32 10, t := List.replicate 32 11,
    inner_product_proof := { l := [], r := [], a := zeros 32, b := zeros 32 }, n := 64 }

/-- A 64-byte blob: long enough for commitment extraction, too short to parse. -/
def blobShort : Bytes := List.replicate 64 1

/-- A 100-byte blob: length inside the always-rejected band [64, 511]. -/
def blobMid : Bytes := List.replicate 100 7

/-- A 600-byte blob of zeros: hits the all-zero-prefix guard. -/
def blobZeros : Bytes := List.replicate 600 0

/-! Transcript operation sequences, for stating the determinism contract of
the transcript engine. -/

/-- One call against a MerlinTranscript engine. -/
inductive TranscriptOp
  | msg (label message : Bytes)
  | point (label point_bytes : Bytes)
  | scalar (label scalar_bytes : Bytes)
  | chalScalar (label : Bytes)
  | chalBytes (label : Bytes) (len : Nat)

/-- Apply one call, returning the new engine state and the challenges the
call returned (empty for appends). -/
def applyTranscriptOp (t : MerlinTranscript) (op : TranscriptOp) :
    MerlinTranscript × List Bytes :=
  match op with
  | .msg label message => (t.append_message label message, [])
  | .point label point_bytes => (t.append_point label point_bytes, [])
  | .scalar label scalar_bytes => (t.append_scalar label scalar_bytes, [])
  | .chalScalar label =>
    let ct := t.challenge_scalar label
    (ct.2, [ct.1])
  | .chalBytes label len =>
    let ct := t.challenge_bytes label len
    (ct.2, [ct.1])

/-- Run a sequence of calls, collecting every returned challenge in order. -/
def runTranscript (t : MerlinTranscript) (ops : List TranscriptOp) :
    MerlinTranscript × List Bytes :=
  match ops with
  | [] => (t, [])
  | op :: rest =>
    let step := applyTranscriptOp t op
    let tail := runTranscript step.1 rest
    (tail.1, step.2 ++ tail.2)

/-- The call sequence verify_range_proof drives: append V, A, S, challenge
y, z, append T1, T2, challenge x (on arbitrary demo payloads). -/
def opsDemo : List TranscriptOp :=
  [.point (strBytes "V") (List.replicate 64 1),
   .point (strBytes "A") (List.replicate 64 2),
   .point (strBytes "S") (List.replicate 64 3),
   .chalScalar (strBytes "y"),
   .chalScalar (strBytes "z"),
   .point (strBytes "T1") (List.replicate 64 4),
   .point (strBytes "T2") (List.replicate 64 5),
   .chalScalar (strBytes "x"),
   .chalBytes (strBytes "extra") 16]

/-! Helper lemmas. -/

lemma natLorEqZero {m n : Nat} : m ||| n = 0 ↔ m = 0 ∧ n = 0 := by
  constructor
  · intro h
    refine ⟨Nat.eq_of_testBit_eq fun i => ?_, Nat.eq_of_testBit_eq fun i => ?_⟩ <;>
    · have hb := congrArg (fun z => Nat.testBit z i) h
      simp only [Nat.testBit_or, Nat.zero_testBit, Bool.or_eq_false_iff] at hb
      simp [hb.1, hb.2]
  · rintro ⟨rfl, rfl⟩
    rfl

lemma ctFoldlEqZero (l : List (Nat × Nat)) (acc : Nat) :
    (l.foldl (fun result p => result ||| (p.1 ^^^ p.2)) acc = 0) ↔
      (acc = 0 ∧ ∀ p ∈ l, p.1 = p.2) := by
  induction l generalizing acc with
  | nil => simp
  | cons hd tl ih =>
    simp only [List.foldl_cons, ih, natLorEqZero, Nat.xor_eq_zero, List.mem_cons]
    constructor
    · rintro ⟨⟨h1, h2⟩, h3⟩
      refine ⟨h1, fun p hp => ?_⟩
      rcases hp with rfl | hp
      · exact h2
      · exact h3 p hp
    · rintro ⟨h1, h2⟩
      exact ⟨⟨h1, h2 hd (Or.inl rfl)⟩, fun p hp => h2 p (Or.inr hp)⟩

lemma zipPointwiseEq : ∀ {a b : List Nat}, a.length = b.length →
    (∀ p ∈ a.zip b, p.1 = p.2) → a = b
  | [], [], _, _ => rfl
  | [], _ :: _, hlen, _ => by simp at hlen
  | _ :: _, [], hlen, _ => by simp at hlen
  | x :: xs, y :: ys, hlen, h => by
    have hx : x = y := h (x, y) (by simp)
    have ht : xs = ys := by
      refine zipPointwiseEq (by simpa using hlen) fun p hp => h p ?_
      simp [List.zip_cons_cons, hp]
    rw [hx, ht]

lemma zipSelfPointwise : ∀ (a : List Nat), ∀ p ∈ a.zip a, p.1 = p.2
  | [], p, hp => by simp at hp
  | x :: xs, p, hp => by
    rcases (by simpa using hp : p = (x, x) ∨ p ∈ xs.zip xs) with rfl | hp2
    · rfl
    · exact zipSelfPointwise xs p hp2

/-- constant_time_eq decides byte-string equality. -/
lemma constant_time_eq_iff (a b : Bytes) : constant_time_eq a b = true ↔ a = b := by
  unfold constant_time_eq
  by_cases hlen : a.length = b.length
  · rw [if_neg (by simp [hlen])]
    rw [beq_iff_eq, ctFoldlEqZero]
    constructor
    · rintro ⟨-, h⟩
      exact zipPointwiseEq hlen h
    · rintro rfl
      exact ⟨rfl, zipSelfPointwise a⟩
  · rw [if_pos (by simpa using hlen)]
    constructor
    · intro h
      simp at h
    · intro h
      exact absurd (congrArg List.length h) hlen

lemma constant_time_eq_self (a : Bytes) : constant_time_eq a a = true :=
  (constant_time_eq_iff a a).mpr rfl

lemma constant_time_eq_false {a b : Bytes} (h : a ≠ b) : constant_time_eq a b = false := by
  cases hc : constant_time_eq a b
  · rfl
  · exact absurd ((constant_time_eq_iff a b).mp hc) h

lemma read_array_ok {n : Nat} {data : Bytes} {off : Nat} {out : Bytes × Nat}
    (h : read_array n data off = .ok out) :
    out = (sliceAt data off n, off + n) ∧ off + n ≤ data.length := by
  unfold read_array at h
  split at h
  · simp at h
  · cases h
    exact ⟨rfl, by omega⟩

lemma read_array_eval (n : Nat) (data : Bytes) (off : Nat) (h : off + n ≤ data.length) :
    read_array n data off = .ok (sliceAt data off n, off + n) := by
  unfold read_array
  rw [if_neg (by omega)]
  rfl

lemma deserialize_ok_shape {blob : Bytes} {p : TransferProof}
    (h : deserialize_proof_data blob = .ok p) :
    1026 ≤ blob.length ∧ blob.length ≤ 10000 ∧ p = parsedTransferProof blob := by
  unfold deserialize_proof_data at h
  split at h
  · simp at h
  rename_i hlen1
  split at h
  · simp at h
  rename_i hlen2
  split at h
  · simp at h
  rename_i hlen3
  split at h
  · simp at h
  rename_i hzero
  split at h
  · simp at h
  rename_i c1 o1 hr1
  obtain ⟨he1, hb1⟩ := read_array_ok hr1
  rw [Prod.mk.injEq] at he1
  obtain ⟨rfl, rfl⟩ := he1
  split at h
  · simp at h
  rename_i c2 o2 hr2
  obtain ⟨he2, hb2⟩ := read_array_ok hr2
  rw [Prod.mk.injEq] at he2
  obtain ⟨rfl, rfl⟩ := he2
  split at h
  · simp at h
  rename_i c3 o3 hr3
  obtain ⟨he3, hb3⟩ := read_array_ok hr3
  rw [Prod.mk.injEq] at he3
  obtain ⟨rfl, rfl⟩ := he3
  split at h
  · simp at h
  rename_i c4 o4 hr4
  obtain ⟨he4, hb4⟩ := read_array_ok hr4
  rw [Prod.mk.injEq] at he4
  obtain ⟨rfl, rfl⟩ := he4
  split at h
  · simp at h
  rename_i c5 o5 hr5
  obtain ⟨he5, hb5⟩ := read_array_ok hr5
  rw [Prod.mk.injEq] at he5
  obtain ⟨rfl, rfl⟩ := he5
  split at h
  · simp at h
  rename_i c6 o6 hr6
  obtain ⟨he6, hb6⟩ := read_array_ok hr6
  rw [Prod.mk.injEq] at he6
  obtain ⟨rfl, rfl⟩ := he6
  split at h
  · simp at h
  rename_i c7 o7 hr7
  obtain ⟨he7, hb7⟩ := read_array_ok hr7
  rw [Prod.mk.injEq] at he7
  obtain ⟨rfl, rfl⟩ := he7
  split at h
  · simp at h
  rename_i c8 o8 hr8
  obtain ⟨he8, hb8⟩ := read_array_ok hr8
  rw [Prod.mk.injEq] at he8
  obtain ⟨rfl, rfl⟩ := he8
  split at h
  · simp at h
  split at h
  · simp at h
  rename_i c9 o9 hr9
  obtain ⟨he9, hb9⟩ := read_array_ok hr9
  rw [Prod.mk.injEq] at he9
  obtain ⟨rfl, rfl⟩ := he9
  split at h
  · simp at h
  rename_i c10 o10 hr10
  obtain ⟨he10, hb10⟩ := read_array_ok hr10
  rw [Prod.mk.injEq] at he10
  obtain ⟨rfl, rfl⟩ := he10
  split at h
  · simp at h
  rename_i c11 o11 hr11
  obtain ⟨he11, hb11⟩ := read_array_ok hr11
  rw [Prod.mk.injEq] at he11
  obtain ⟨rfl, rfl⟩ := he11
  split at h
  · simp at h
  rename_i c12 o12 hr12
  obtain ⟨he12, hb12⟩ := read_array_ok hr12
  rw [Prod.mk.injEq] at he12
  obtain ⟨rfl, rfl⟩ := he12
  split at h
  · simp at h
  rename_i c13 o13 hr13
  obtain ⟨he13, hb13⟩ := read_array_ok hr13
  rw [Prod.mk.injEq] at he13
  obtain ⟨rfl, rfl⟩ := he13
  split at h
  · simp at h
  rename_i c14 o14 hr14
  obtain ⟨he14, hb14⟩ := read_array_ok hr14
  rw [Prod.mk.injEq] at he14
  obtain ⟨rfl, rfl⟩ := he14
  split at h
  · simp at h
  rename_i c15 o15 hr15
  obtain ⟨he15, hb15⟩ := read_array_ok hr15
  rw [Prod.mk.injEq] at he15
  obtain ⟨rfl, rfl⟩ := he15
  split at h
  · simp at h
  rename_i c16 o16 hr16
  obtain ⟨he16, hb16⟩ := read_array_ok hr16
  rw [Prod.mk.injEq] at he16
  obtain ⟨rfl, rfl⟩ := he16
  split at h
  · simp at h
  split at h
  · simp at h
  rename_i c17 o17 hr17
  obtain ⟨he17, hb17⟩ := read_array_ok hr17
  rw [Prod.mk.injEq] at he17
  obtain ⟨rfl, rfl⟩ := he17
  split at h
  · simp at h
  rename_i c18 o18 hr18
  obtain ⟨he18, hb18⟩ := read_array_ok hr18
  rw [Prod.mk.injEq] at he18
  obtain ⟨rfl, rfl⟩ := he18
  split at h
  · simp at h
  split at h
  · simp at h
  rename_i c19 o19 hr19
  obtain ⟨he19, hb19⟩ := read_array_ok hr19
  rw [Prod.mk.injEq] at he19
  obtain ⟨rfl, rfl⟩ := he19
  split at h
  · simp at h
  rename_i c20 o20 hr20
  obtain ⟨he20, hb20⟩ := read_array_ok hr20
  rw [Prod.mk.injEq] at he20
  obtain ⟨rfl, rfl⟩ := he20
  split at h
  · simp at h
  rw [Except.ok.injEq] at h
  subst h
  simp only [MAX_PROOF_DATA_SIZE] at hlen2
  refine ⟨by omega, by omega, ?_⟩
  simp only [parsedTransferProof]
  norm_num
  exact ⟨fun hle => absurd hle (by omega), fun hle => absurd hle (by omega)⟩



lemma deserialize_eval {blob : Bytes}
    (hlen1 : 1026 ≤ blob.length) (hlen2 : blob.length ≤ 10000)
    (hzero : (blob.take 256).all (fun b => b == 0) = false)
    (hf1 : sliceAt blob 0 64 ≠ zeros 64) (hf2 : sliceAt blob 64 64 ≠ zeros 64)
    (hf3 : sliceAt blob 128 64 ≠ zeros 64)
    (hf4 : sliceAt blob 320 32 ≠ zeros 32) (hf5 : sliceAt blob 352 32 ≠ zeros 32)
    (hf6 : sliceAt blob 384 32 ≠ zeros 32)
    (hg1 : sliceAt blob 417 64 ≠ zeros 64) (hg2 : sliceAt blob 481 64 ≠ zeros 64)
    (hg3 : sliceAt blob 545 64 ≠ zeros 64)
    (hg4 : sliceAt blob 737 32 ≠ zeros 32) (hg5 : sliceAt blob 769 32 ≠ zeros 32)
    (hg6 : sliceAt blob 801 32 ≠ zeros 32)
    (he1 : sliceAt blob 834 64 ≠ zeros 64) (he2 : sliceAt blob 898 32 ≠ zeros 32)
    (he3 : sliceAt blob 930 64 ≠ zeros 64) (he4 : sliceAt blob 994 32 ≠ zeros 32) :
    deserialize_proof_data blob = .ok (parsedTransferProof blob) := by
  unfold deserialize_proof_data
  rw [if_neg (by simp only [MIN_PROOF_DATA_SIZE]; omega),
      if_neg (by simp only [MAX_PROOF_DATA_SIZE]; omega),
      if_neg (by omega),
      if_neg (by simp [hzero])]
  simp only [Nat.reduceAdd,
    read_array_eval 64 blob 0 (by omega), read_array_eval 64 blob 64 (by omega),
    read_array_eval 64 blob 128 (by omega), read_array_eval 64 blob 192 (by omega),
    read_array_eval 64 blob 256 (by omega), read_array_eval 32 blob 320 (by omega),
    read_array_eval 32 blob 352 (by omega), read_array_eval 32 blob 384 (by omega),
    read_array_eval 64 blob 417 (by omega), read_array_eval 64 blob 481 (by omega),
    read_array_eval 64 blob 545 (by omega), read_array_eval 64 blob 609 (by omega),
    read_array_eval 64 blob 673 (by omega), read_array_eval 32 blob 737 (by omega),
    read_array_eval 32 blob 769 (by omega), read_array_eval 32 blob 801 (by omega),
    read_array_eval 64 blob 834 (by omega), read_array_eval 32 blob 898 (by omega),
    read_array_eval 64 blob 930 (by omega), read_array_eval 32 blob 994 (by omega)]
  rw [if_neg (by simp [beq_iff_eq, hf1, hf2, hf3, hf4, hf5, hf6]),
      if_neg (by simp [beq_iff_eq, hg1, hg2, hg3, hg4, hg5, hg6]),
      if_neg (by simp [beq_iff_eq, he1, he2]),
      if_neg (by simp [beq_iff_eq, he3, he4]),
      if_pos (show 416 < blob.length by omega),
      if_pos (show 833 < blob.length by omega)]
  rfl

lemma verify_range_proof_ok_commitment {p : BulletproofRangeProof} {c : Bytes}
    (h : verify_range_proof p c = .ok ()) : constant_time_eq p.commitment c = true := by
  unfold verify_range_proof at h
  split at h
  · simp at h
  split at h
  · simp at h
  rename_i h2
  simpa using h2


/-! Claim theorems. -/

/-- C1 counterexample: on the Scenario-1 blob (bytes [0,64) equal to 0x01,
the rest zero), verify_transfer_proof does not return DeserializationFailed
as the claim states: the first 256 bytes are not all zero, so the
all-zero-prefix heuristic does not fire. -/
theorem C1_counterexample :
    verify_transfer_proof blobScenario1 (List.replicate 64 2) (List.replicate 64 2)
      (List.replicate 64 2) (List.replicate 64 2) (List.replicate 64 2) ≠
      .error .DeserializationFailed := by decide

/-- C1 (amended): on the Scenario-1 blob, extract_amount_commitment returns
the 64 bytes of 0x01, and verify_transfer_proof returns InvalidRangeProof
for every choice of commitment arguments: the all-zero-prefix heuristic
does not fire (bytes [0,64) are non-zero), and deserialization rejects the
all-zero A field at bytes [64,128). -/
theorem C1_scenario1 :
    extract_amount_commitment blobScenario1 = .ok (List.replicate 64 1) ∧
    ∀ c1 c2 c3 c4 c5 : Bytes,
      verify_transfer_proof blobScenario1 c1 c2 c3 c4 c5 = .error .InvalidRangeProof := by
  refine ⟨by decide, fun c1 c2 c3 c4 c5 => ?_⟩
  have hd : deserialize_proof_data blobScenario1 = .error .InvalidRangeProof := by decide
  unfold verify_transfer_proof
  rw [hd]

/-- C2 counterexample: on the Scenario-2 blob the parse succeeds and the
sender-after commitment is the 64-byte slice starting at offset 417, which
differs from the slice starting at offset 301 where the claim places the
second range record. -/
theorem C2_counterexample :
    (deserialize_proof_data blobScenario2).toOption.map
        (fun p => p.sender_after_range_proof.commitment) =
      some (sliceAt blobScenario2 417 64) ∧
    sliceAt blobScenario2 417 64 ≠ sliceAt blobScenario2 301 64 := by
  exact ⟨by decide, by decide⟩

/-- C2 (amended): the codec parses the blob at the fixed offsets of the wire
format, but each range-proof record is 417 bytes (5 x 64-byte commitments,
3 x 32-byte scalars, 1 length byte), so the second range record starts at
byte offset 417 and the first 96-byte equality record at offset 834 (the
second at 930); parsedTransferProof records exactly these offsets. -/
theorem C2_layout {blob : Bytes}
    (hlen1 : 1026 ≤ blob.length) (hlen2 : blob.length ≤ 10000)
    (hzero : (blob.take 256).all (fun b => b == 0) = false)
    (hf1 : sliceAt blob 0 64 ≠ zeros 64) (hf2 : sliceAt blob 64 64 ≠ zeros 64)
    (hf3 : sliceAt blob 128 64 ≠ zeros 64)
    (hf4 : sliceAt blob 320 32 ≠ zeros 32) (hf5 : sliceAt blob 352 32 ≠ zeros 32)
    (hf6 : sliceAt blob 384 32 ≠ zeros 32)
    (hg1 : sliceAt blob 417 64 ≠ zeros 64) (hg2 : sliceAt blob 481 64 ≠ zeros 64)
    (hg3 : sliceAt blob 545 64 ≠ zeros 64)
    (hg4 : sliceAt blob 737 32 ≠ zeros 32) (hg5 : sliceAt blob 769 32 ≠ zeros 32)
    (hg6 : sliceAt blob 801 32 ≠ zeros 32)
    (he1 : sliceAt blob 834 64 ≠ zeros 64) (he2 : sliceAt blob 898 32 ≠ zeros 32)
    (he3 : sliceAt blob 930 64 ≠ zeros 64) (he4 : sliceAt blob 994 32 ≠ zeros 32) :
    deserialize_proof_data blob = .ok (parsedTransferProof blob) :=
  deserialize_eval hlen1 hlen2 hzero hf1 hf2 hf3 hf4 hf5 hf6
    hg1 hg2 hg3 hg4 hg5 hg6 he1 he2 he3 he4

/-- C2 witness: the layout theorem applied to the concrete Scenario-2 blob. -/
theorem C2_witness :
    deserialize_proof_data blobScenario2 = .ok (parsedTransferProof blobScenario2) :=
  C2_layout (by decide) (by decide) (by decide) (by decide) (by decide) (by decide)
    (by decide) (by decide) (by decide) (by decide) (by decide) (by decide)
    (by decide) (by decide) (by decide) (by decide) (by decide) (by decide)
    (by decide)

/-- C3 counterexample: a 64-byte blob whose first 64 bytes differ from the
supplied amount commitment makes verify_transfer_proof fail with
DeserializationFailed, not CommitmentMismatch as the claim states for every
blob. -/
theorem C3_counterexample :
    blobShort.take 64 ≠ List.replicate 64 2 ∧
    verify_transfer_proof blobShort (List.replicate 64 2) (List.replicate 64 2)
      (List.replicate 64 2) (List.replicate 64 2) (List.replicate 64 2) =
      .error .DeserializationFailed := by
  exact ⟨by decide, by decide⟩

/-- C3 (amended): whenever deserialization succeeds and the supplied amount
commitment is non-zero, if the first 64 bytes of the blob differ from the
supplied amount commitment then verify_transfer_proof fails with
CommitmentMismatch. -/
theorem C3_binding {blob ac sac so ro rn : Bytes} {p : TransferProof}
    (hd : deserialize_proof_data blob = .ok p)
    (hnz : ac ≠ zeros 64)
    (hne : blob.take 64 ≠ ac) :
    verify_transfer_proof blob ac sac so ro rn = .error .CommitmentMismatch := by
  obtain ⟨-, -, rfl⟩ := deserialize_ok_shape hd
  have hcm : constant_time_eq (parsedTransferProof blob).amount_range_proof.commitment ac
      = false := by
    have hc : (parsedTransferProof blob).amount_range_proof.commitment = blob.take 64 := by
      simp [parsedTransferProof, sliceAt]
    rw [hc]
    exact constant_time_eq_false hne
  have hv : verify_range_proof (parsedTransferProof blob).amount_range_proof ac =
      .error .CommitmentMismatch := by
    unfold verify_range_proof
    rw [if_neg (by simp [is_valid_commitment_format, is_nonzero_point, bne_iff_ne, hnz]),
        if_pos (by simp [hcm])]
  simp only [verify_transfer_proof, hd, hv]

/-- C3 witness: the amended binding theorem applied to the well-formed
minimum-length blob with a mismatched non-zero amount commitment. -/
theorem C3_witness :
    verify_transfer_proof blobMin (List.replicate 64 60) (List.replicate 64 41)
      (List.replicate 64 53) (List.replicate 64 54) (List.replicate 64 55) =
      .error .CommitmentMismatch :=
  C3_binding
    (show deserialize_proof_data blobMin = .ok (parsedTransferProof blobMin) by decide)
    (by decide) (by decide)

/-- C4: on the Scenario-2 blob (1600 bytes, every field slot a distinct
non-zero pattern, n = 64 in both range records) with the caller-supplied
amount and sender-after commitments equal to the embedded ones and
distinct non-zero sender-old/recipient-old/recipient-new commitments,
verify_transfer_proof returns Ok. -/
theorem C4_scenario2 :
    verify_transfer_proof blobScenario2 (List.replicate 64 1) (List.replicate 64 9)
      (List.replicate 64 33) (List.replicate 64 34) (List.replicate 64 35) = .ok () := by
  decide

/-- C5: blobs shorter than 64 bytes, of length in [64, 511], or longer than
10000 bytes are all rejected by deserialize_proof_data with
DeserializationFailed, regardless of content. -/
theorem C5_length_guards {blob : Bytes}
    (h : blob.length < 64 ∨ (64 ≤ blob.length ∧ blob.length ≤ 511) ∨
      10000 < blob.length) :
    deserialize_proof_data blob = .error .DeserializationFailed := by
  unfold deserialize_proof_data
  rcases h with h | ⟨h1, h2⟩ | h
  · rw [if_pos (by simp only [MIN_PROOF_DATA_SIZE]; omega)]
  · rw [if_neg (by simp only [MIN_PROOF_DATA_SIZE]; omega),
        if_neg (by simp only [MAX_PROOF_DATA_SIZE]; omega),
        if_pos (by omega)]
  · rw [if_neg (by simp only [MIN_PROOF_DATA_SIZE]; omega),
        if_pos (by simp only [MAX_PROOF_DATA_SIZE]; omega)]

/-- C5 witness: a 100-byte blob lies in [64, 511] and is rejected. -/
theorem C5_witness :
    (64 ≤ blobMid.length ∧ blobMid.length ≤ 511) ∧
    deserialize_proof_data blobMid = .error .DeserializationFailed :=
  ⟨by decide, C5_length_guards (Or.inr (Or.inl (by decide)))⟩

/-- C6: any blob whose first 256 bytes are all zero is rejected by
deserialize_proof_data with DeserializationFailed, whatever its length. -/
theorem C6_allzero {blob : Bytes}
    (h : (blob.take 256).all (fun b => b == 0) = true) :
    deserialize_proof_data blob = .error .DeserializationFailed := by
  unfold deserialize_proof_data
  by_cases h1 : blob.length < MIN_PROOF_DATA_SIZE
  · rw [if_pos h1]
  rw [if_neg h1]
  by_cases h2 : blob.length > MAX_PROOF_DATA_SIZE
  · rw [if_pos h2]
  rw [if_neg h2]
  by_cases h3 : blob.length < 512
  · rw [if_pos h3]
  rw [if_neg h3, if_pos h]

/-- C6 witness: a 600-byte all-zero blob, of otherwise valid length, is
rejected. -/
theorem C6_witness :
    ((blobZeros.take 256).all (fun b => b == 0) = true) ∧
    deserialize_proof_data blobZeros = .error .DeserializationFailed :=
  ⟨by decide, C6_allzero (by decide)⟩

/-- C7: two independently constructed transcript engines created with the
same domain separator and driven by the same sequence of append and
challenge calls return identical challenge values at every challenge
call. -/
theorem C7_determinism (d1 d2 : Bytes) (ops1 ops2 : List TranscriptOp)
    (hd : d1 = d2) (hops : ops1 = ops2) :
    (runTranscript (MerlinTranscript.new d1) ops1).2 =
      (runTranscript (MerlinTranscript.new d2) ops2).2 := by
  subst hd
  subst hops
  rfl

/-- C7 witness: the determinism theorem applied to the range-proof domain
separator and the call sequence used by verify_range_proof. -/
theorem C7_witness :
    (runTranscript (MerlinTranscript.new (rangeproof_domain_sep 64 1)) opsDemo).2 =
      (runTranscript (MerlinTranscript.new (rangeproof_domain_sep 64 1)) opsDemo).2 :=
  C7_determinism (rangeproof_domain_sep 64 1) (rangeproof_domain_sep 64 1)
    opsDemo opsDemo rfl rfl

/-- C8: for a non-zero expected commitment equal to the record's commitment,
a record with byte-identical A and S (or T1 and T2, or taux and mu) is
rejected by verify_range_proof with InvalidRangeProof. -/
theorem C8_distinctness {p : BulletproofRangeProof} {c : Bytes}
    (hnz : c ≠ zeros 64) (hmatch : p.commitment = c)
    (hdup : p.a = p.s ∨ p.t1 = p.t2 ∨ p.taux = p.mu) :
    verify_range_proof p c = .error .InvalidRangeProof := by
  unfold verify_range_proof
  rw [if_neg (by simp [is_valid_commitment_format, is_nonzero_point, bne_iff_ne, hnz]),
      if_neg (by simp [hmatch, constant_time_eq_self])]
  by_cases h3 : (!is_nonzero_point p.a || !is_nonzero_point p.s
      || !is_nonzero_point p.t1 || !is_nonzero_point p.t2) = true
  · rw [if_pos h3]
  rw [if_neg h3]
  by_cases h4 : (p.taux == zeros 32 || p.mu == zeros 32 || p.t == zeros 32) = true
  · rw [if_pos h4]
  rw [if_neg h4]
  have hdupb : (constant_time_eq p.a p.s || constant_time_eq p.t1 p.t2
      || constant_time_eq p.taux p.mu) = true := by
    rcases hdup with h | h | h <;> simp [h, constant_time_eq_self]
  simp [hdupb]

/-- C8 witness: the distinctness theorem applied to a concrete record with
non-zero byte-identical A and S fields. -/
theorem C8_witness :
    (List.replicate 64 5 ≠ zeros 64 ∧ rpDupAS.commitment = List.replicate 64 5 ∧
      rpDupAS.a = rpDupAS.s ∧ rpDupAS.a ≠ zeros 64) ∧
    verify_range_proof rpDupAS (List.replicate 64 5) = .error .InvalidRangeProof :=
  ⟨⟨by decide, rfl, rfl, by decide⟩,
   C8_distinctness (by decide) rfl (Or.inl rfl)⟩

/-- C9: whenever deserialization, both range-proof verifications and the
validity verification succeed, the final binding re-check also passes, so
verify_transfer_proof returns Ok; CommitmentMismatch can therefore only
arise from within verify_range_proof. -/
theorem C9_binding_recheck {blob ac sac so ro rn : Bytes} {p : TransferProof}
    (h1 : deserialize_proof_data blob = .ok p)
    (h2 : verify_range_proof p.amount_range_proof ac = .ok ())
    (h3 : verify_range_proof p.sender_after_range_proof sac = .ok ())
    (h4 : verify_validity_proof p.validity_proof so ac sac ro rn = .ok ()) :
    verify_transfer_proof blob ac sac so ro rn = .ok () := by
  have hc1 := verify_range_proof_ok_commitment h2
  have hc2 := verify_range_proof_ok_commitment h3
  simp [verify_transfer_proof, h1, h2, h3, h4, hc1, hc2]

/-- C9 witness: the re-check theorem applied to the minimum-length
well-formed blob with matching commitments. -/
theorem C9_witness :
    verify_transfer_proof blobMin (List.replicate 64 33) (List.replicate 64 41)
      (List.replicate 64 53) (List.replicate 64 54) (List.replicate 64 55) = .ok () :=
  C9_binding_recheck
    (show deserialize_proof_data blobMin = .ok (parsedTransferProof blobMin) by decide)
    (by decide) (by decide) (by decide)

/-- C10 counterexample: a 1026-byte blob parses successfully, refuting the
claim that every blob shorter than 1090 bytes is rejected. -/
theorem C10_counterexample :
    blobMin.length = 1026 ∧ (deserialize_proof_data blobMin).isOk = true := by
  exact ⟨by decide, by decide⟩

/-- C10 (amended): the true minimum parseable length is 1026 bytes, not
1090: the fixed layout consumes 416 + 1 bytes per range-proof record and
96 bytes per equality-proof record, and deserialize_proof_data returns Ok
only when the input length is in [1026, 10000]. -/
theorem C10_min_length {blob : Bytes}
    (h : (deserialize_proof_data blob).isOk = true) :
    1026 ≤ blob.length ∧ blob.length ≤ 10000 := by
  cases hd : deserialize_proof_data blob with
  | error e => rw [hd] at h; simp [Except.isOk, Except.toBool] at h
  | ok p =>
    obtain ⟨hb1, hb2, -⟩ := deserialize_ok_shape hd
    exact ⟨hb1, hb2⟩

/-- C10 witness: the bound theorem applied to the 1026-byte blob. -/
theorem C10_witness :
    1026 ≤ blobMin.length ∧ blobMin.length ≤ 10000 :=
  C10_min_length (by decide)

end PrivacyTransfer
